import Mathlib

/-!
Verification development for the loop-state machine of `nodes.py`
(comfyui-loop-memory-safe).

A loop signal is a Python dict with optional keys, read through
`dict.get(key, default)`; we model it as a structure of `Option` fields
together with `Option.getD`.  The process-wide `_loop_state` dict is
modelled as an association list from loop identifiers to state records,
threaded explicitly through the auto-mode operations.  Memory-cleanup
calls (`torch`, `gc`, `model_management`) are fire-and-forget host
side effects that do not influence any returned value, so the node
`execute` methods are embedded as pure functions of the remaining
arguments.
-/

/-- A `LOOP_SIGNAL` dict.  Every key may be absent; readers default
`current_index`/`start_index` to `0`, `max_iterations` to `1` and
`loop_id` to `"default"`. -/
structure LoopSignal where
  loop_id : Option String
  current_index : Option Int
  start_index : Option Int
  max_iterations : Option Int
  is_active : Option Bool
deriving DecidableEq, Repr

/-- A persisted per-loop state record as stored in `_loop_state`. -/
structure LoopState where
  current_index : Option Int
  start_index : Option Int
  max_iterations : Option Int
deriving DecidableEq, Repr

/-- The process-wide `_loop_state` dict: loop identifier to state record. -/
abbrev StateMap := List (String × LoopState)

/-- `get_loop_state`: `_loop_state.get(loop_id, None)`. -/
def get_loop_state (m : StateMap) (loop_id : String) : Option LoopState :=
  match m with
  | [] => none
  | (k, v) :: rest => if k = loop_id then some v else get_loop_state rest loop_id

/-- `set_loop_state`: `_loop_state[loop_id] = state` (replace in place or
append, as Python dict assignment). -/
def set_loop_state (m : StateMap) (loop_id : String) (state : LoopState) : StateMap :=
  match m with
  | [] => [(loop_id, state)]
  | (k, v) :: rest =>
      if k = loop_id then (loop_id, state) :: rest
      else (k, v) :: set_loop_state rest loop_id state

/-- `clear_loop_state(loop_id=None)`: clear one slot, or the whole map
when no identifier is given. -/
def clear_loop_state : StateMap → Option String → StateMap
  | _, none => []
  | [], some _ => []
  | (k, v) :: rest, some id =>
      if k = id then clear_loop_state rest (some id)
      else (k, v) :: clear_loop_state rest (some id)

namespace LoopStart

/-- Return tuple of `LoopStart.execute`. -/
structure Result where
  current_index : Int
  start_index : Int
  max_iterations : Int
  loop_signal : LoopSignal
deriving DecidableEq, Repr

/-- `LoopStart.execute(start_index, max_iterations, loop_signal=None)`. -/
def execute (start_index max_iterations : Int) (loop_signal : Option LoopSignal) : Result :=
  let current_index :=
    match loop_signal with
    | none => start_index
    | some sig => sig.current_index.getD start_index
  { current_index := current_index
    start_index := start_index
    max_iterations := max_iterations
    loop_signal :=
      { loop_id := none
        current_index := some current_index
        start_index := some start_index
        max_iterations := some max_iterations
        is_active := some (decide (current_index < start_index + max_iterations)) } }

end LoopStart

namespace LoopEnd

/-- Return tuple of `LoopEnd.execute` (memory-cleanup flags only drive
host side effects and never change the returned values). -/
structure Result (α : Type) where
  loop_signal : LoopSignal
  passthrough : α
  continue_loop : Bool
deriving DecidableEq, Repr

/-- `LoopEnd.execute(loop_signal, passthrough=None, ...)`. -/
def execute {α : Type} (loop_signal : LoopSignal) (passthrough : α) : Result α :=
  let current_index := loop_signal.current_index.getD 0
  let start_index := loop_signal.start_index.getD 0
  let max_iterations := loop_signal.max_iterations.getD 1
  let next_index := current_index + 1
  let end_index := start_index + max_iterations
  let continue_loop := decide (next_index < end_index)
  { loop_signal :=
      { loop_id := none
        current_index := some next_index
        start_index := some start_index
        max_iterations := some max_iterations
        is_active := some continue_loop }
    passthrough := passthrough
    continue_loop := continue_loop }

end LoopEnd

namespace LoopCondition

/-- Return tuple of `LoopCondition.execute`. -/
structure Result where
  should_continue : Bool
  current_index : Int
  remaining : Int
deriving DecidableEq, Repr

/-- `LoopCondition.execute(loop_signal)`. -/
def execute (loop_signal : LoopSignal) : Result :=
  let current_index := loop_signal.current_index.getD 0
  let start_index := loop_signal.start_index.getD 0
  let max_iterations := loop_signal.max_iterations.getD 1
  let end_index := start_index + max_iterations
  { should_continue := decide (current_index < end_index)
    current_index := current_index
    remaining := max 0 (end_index - current_index - 1) }

end LoopCondition

namespace LoopIndex

/-- Return tuple of `LoopIndex.execute`; `progress` is Python true
division of integers, modelled as exact rational division. -/
structure Result where
  current_index : Int
  iteration : Int
  total_iterations : Int
  remaining : Int
  progress : ℚ
deriving DecidableEq, Repr

/-- `LoopIndex.execute(loop_signal)`. -/
def execute (loop_signal : LoopSignal) : Result :=
  let current_index := loop_signal.current_index.getD 0
  let start_index := loop_signal.start_index.getD 0
  let max_iterations := loop_signal.max_iterations.getD 1
  let iteration := current_index - start_index
  { current_index := current_index
    iteration := iteration
    total_iterations := max_iterations
    remaining := max 0 (max_iterations - iteration - 1)
    progress :=
      if max_iterations > 0 then ((iteration + 1 : Int) : ℚ) / ((max_iterations : Int) : ℚ)
      else 1 }

end LoopIndex

namespace IntIterator

/-- Return tuple of `IntIterator.execute`. -/
structure Result where
  value : Int
  iteration : Int
  has_more : Bool
deriving DecidableEq, Repr

/-- `IntIterator.execute(start, end, step, current_iteration)`. -/
def execute (start end_ step current_iteration : Int) : Result :=
  let value := start + current_iteration * step
  { value := value
    iteration := current_iteration
    has_more :=
      if step > 0 then decide (value + step ≤ end_) else decide (value + step ≥ end_) }

end IntIterator

namespace AutoLoopStart

/-- Return tuple of `AutoLoopStart.execute`, together with the state map
after the call (the Python method mutates the global `_loop_state`). -/
structure Result where
  state_map : StateMap
  current_index : Int
  iteration : Int
  remaining : Int
  progress : ℚ
  is_last : Bool
  loop_signal : LoopSignal
deriving DecidableEq, Repr

/-- `AutoLoopStart.execute(loop_id, start_index, max_iterations, reset=False)`. -/
def execute (m : StateMap) (loop_id : String) (start_index max_iterations : Int)
    (reset : Bool) : Result :=
  let step1 : Int × StateMap :=
    match get_loop_state m loop_id, reset with
    | some state, false => (state.current_index.getD start_index, m)
    | _, _ =>
        (start_index,
         set_loop_state m loop_id
           { current_index := some start_index
             start_index := some start_index
             max_iterations := some max_iterations })
  let current_index := step1.1
  let iteration := current_index - start_index
  let end_index := start_index + max_iterations
  { state_map := step1.2
    current_index := current_index
    iteration := iteration
    remaining := max 0 (end_index - current_index - 1)
    progress :=
      if max_iterations > 0 then ((iteration + 1 : Int) : ℚ) / ((max_iterations : Int) : ℚ)
      else 1
    is_last := decide (current_index ≥ end_index - 1)
    loop_signal :=
      { loop_id := some loop_id
        current_index := some current_index
        start_index := some start_index
        max_iterations := some max_iterations
        is_active := some (decide (current_index < end_index)) } }

end AutoLoopStart

namespace AutoLoopEnd

/-- Return tuple of `AutoLoopEnd.execute`, together with the state map
after the call. -/
structure Result (α : Type) where
  state_map : StateMap
  passthrough : α
  should_continue : Bool
  next_index : Int
deriving DecidableEq, Repr

/-- `AutoLoopEnd.execute(loop_signal, passthrough=None, ...)`:
persist the advanced record, then drop the slot when the loop is done. -/
def execute {α : Type} (m : StateMap) (loop_signal : LoopSignal) (passthrough : α) :
    Result α :=
  let loop_id := loop_signal.loop_id.getD "default"
  let current_index := loop_signal.current_index.getD 0
  let start_index := loop_signal.start_index.getD 0
  let max_iterations := loop_signal.max_iterations.getD 1
  let next_index := current_index + 1
  let end_index := start_index + max_iterations
  let should_continue := decide (next_index < end_index)
  let m1 := set_loop_state m loop_id
    { current_index := some next_index
      start_index := some start_index
      max_iterations := some max_iterations }
  { state_map := if should_continue then m1 else clear_loop_state m1 (some loop_id)
    passthrough := passthrough
    should_continue := should_continue
    next_index := next_index }

end AutoLoopEnd

namespace LoopBreak

/-- Return tuple of `LoopBreak.execute`, together with the state map
after the call. -/
structure Result (α : Type) where
  state_map : StateMap
  passthrough : α
  did_break : Bool
deriving DecidableEq, Repr

/-- `LoopBreak.execute(loop_signal, break_condition, passthrough=None)`. -/
def execute {α : Type} (m : StateMap) (loop_signal : LoopSignal) (break_condition : Bool)
    (passthrough : α) : Result α :=
  { state_map :=
      if break_condition then clear_loop_state m (some (loop_signal.loop_id.getD "default"))
      else m
    passthrough := passthrough
    did_break := break_condition }

end LoopBreak

namespace LoopReset

/-- `LoopReset.execute(loop_id, trigger)`. -/
def execute {α : Type} (m : StateMap) (loop_id : String) (trigger : α) : StateMap × α :=
  (clear_loop_state m (some loop_id), trigger)

end LoopReset

/-- A signal with every optional key filled in with the reader defaults
(`0` for the index keys, `1` for the iteration count, `"default"` for
the loop identifier); used to state the defaulting behaviour. -/
def signalWithDefaults (sig : LoopSignal) : LoopSignal :=
  { loop_id := some (sig.loop_id.getD "default")
    current_index := some (sig.current_index.getD 0)
    start_index := some (sig.start_index.getD 0)
    max_iterations := some (sig.max_iterations.getD 1)
    is_active := sig.is_active }

/-- Reading back a slot just written returns the written record. -/
theorem get_set_self (m : StateMap) (id : String) (s : LoopState) :
    get_loop_state (set_loop_state m id s) id = some s := by
  induction m with
  | nil => simp [set_loop_state, get_loop_state]
  | cons p rest ih =>
      obtain ⟨k, v⟩ := p
      by_cases h : k = id <;> simp [set_loop_state, get_loop_state, h, ih]

/-- Writing one slot leaves every other slot unchanged. -/
theorem get_set_other (m : StateMap) (id id2 : String) (s : LoopState) (h : id2 ≠ id) :
    get_loop_state (set_loop_state m id s) id2 = get_loop_state m id2 := by
  induction m with
  | nil => simp [set_loop_state, get_loop_state, Ne.symm h]
  | cons p rest ih =>
      obtain ⟨k, v⟩ := p
      by_cases hk : k = id
      · subst hk
        simp [set_loop_state, get_loop_state, Ne.symm h]
      · by_cases hk2 : k = id2 <;>
          simp [set_loop_state, get_loop_state, hk, hk2, ih, h]

/-- Clearing a slot makes it absent. -/
theorem get_clear_self (m : StateMap) (id : String) :
    get_loop_state (clear_loop_state m (some id)) id = none := by
  induction m with
  | nil => simp [clear_loop_state, get_loop_state]
  | cons p rest ih =>
      obtain ⟨k, v⟩ := p
      by_cases h : k = id <;> simp [clear_loop_state, get_loop_state, h, ih]

/-- Clearing a slot leaves every other slot unchanged. -/
theorem get_clear_other (m : StateMap) (id id2 : String) (h : id2 ≠ id) :
    get_loop_state (clear_loop_state m (some id)) id2 = get_loop_state m id2 := by
  induction m with
  | nil => simp [clear_loop_state, get_loop_state]
  | cons p rest ih =>
      obtain ⟨k, v⟩ := p
      by_cases hk : k = id
      · subst hk
        simp [clear_loop_state, get_loop_state, Ne.symm h, ih]
      · simp [clear_loop_state, get_loop_state, hk, ih]

/-- Clearing a slot that is absent leaves the whole map unchanged. -/
theorem clear_of_get_none (m : StateMap) (id : String) :
    get_loop_state m id = none → clear_loop_state m (some id) = m := by
  induction m with
  | nil => intro _; simp [clear_loop_state]
  | cons p rest ih =>
      intro h
      obtain ⟨k, v⟩ := p
      by_cases hk : k = id
      · simp [get_loop_state, hk] at h
      · simp only [get_loop_state, hk, if_false] at h
        simp [clear_loop_state, hk, ih h]

/-- Claim C9: Integer Iterator with start = 0, end = 10, step = 2 returns
value 6 and has_more = true at current_iteration = 3, value 8 and true at
4, and value 10 and false at 5; in general value = start +
current_iteration * step and, for positive step, has_more holds exactly
when value + step ≤ end. -/
theorem int_iterator_scenario :
    (IntIterator.execute 0 10 2 3 =
      { value := 6, iteration := 3, has_more := true })
    ∧ (IntIterator.execute 0 10 2 4 =
      { value := 8, iteration := 4, has_more := true })
    ∧ (IntIterator.execute 0 10 2 5 =
      { value := 10, iteration := 5, has_more := false })
    ∧ (∀ start end_ step k : Int,
        (IntIterator.execute start end_ step k).value = start + k * step
        ∧ (0 < step →
            ((IntIterator.execute start end_ step k).has_more = true ↔
              (IntIterator.execute start end_ step k).value + step ≤ end_))) := by
  refine ⟨by decide, by decide, by decide, ?_⟩
  intro start end_ step k
  constructor
  · rfl
  · intro hstep
    simp [IntIterator.execute, hstep]

/-- Claim C9 witness: the positive-step characterisation of has_more,
instantiated at start = 0, end = 10, step = 2, current_iteration = 3. -/
theorem int_iterator_scenario_witness :
    (IntIterator.execute 0 10 2 3).has_more = true ↔
      (IntIterator.execute 0 10 2 3).value + 2 ≤ 10 :=
  (int_iterator_scenario.2.2.2 0 10 2 3).2 (by decide)

/-- Claim C2: with start_index 0 and max_iterations 3, three chained End
invocations produce the pairs (0→1, true), (1→2, true), (2→3, false),
both in manual mode (signals threaded through Loop End) and in auto mode
(state persisted between Auto Loop Start and Auto Loop End); after the
third auto-mode End the persisted slot for the loop identifier is absent. -/
theorem three_iteration_scenario :
    (let s0 := (LoopStart.execute 0 3 none).loop_signal
     let e1 := LoopEnd.execute s0 ()
     let e2 := LoopEnd.execute e1.loop_signal ()
     let e3 := LoopEnd.execute e2.loop_signal ()
     s0.current_index = some 0
     ∧ e1.loop_signal.current_index = some 1 ∧ e1.continue_loop = true
     ∧ e2.loop_signal.current_index = some 2 ∧ e2.continue_loop = true
     ∧ e3.loop_signal.current_index = some 3 ∧ e3.continue_loop = false)
    ∧ (let s1 := AutoLoopStart.execute [] "loop_1" 0 3 false
       let a1 := AutoLoopEnd.execute s1.state_map s1.loop_signal ()
       let s2 := AutoLoopStart.execute a1.state_map "loop_1" 0 3 false
       let a2 := AutoLoopEnd.execute s2.state_map s2.loop_signal ()
       let s3 := AutoLoopStart.execute a2.state_map "loop_1" 0 3 false
       let a3 := AutoLoopEnd.execute s3.state_map s3.loop_signal ()
       s1.current_index = 0 ∧ a1.should_continue = true ∧ a1.next_index = 1
       ∧ s2.current_index = 1 ∧ a2.should_continue = true ∧ a2.next_index = 2
       ∧ s3.current_index = 2 ∧ a3.should_continue = false ∧ a3.next_index = 3
       ∧ get_loop_state a3.state_map "loop_1" = none) :=
  ⟨by decide, by decide⟩

/-- Claim C10: for every state map, loop identifier, bounds and reset flag,
the is_last output of Auto Loop Start is true exactly when its remaining
output equals 0. -/
theorem auto_start_is_last_iff_remaining_zero
    (m : StateMap) (loop_id : String) (start_index max_iterations : Int) (reset : Bool) :
    (AutoLoopStart.execute m loop_id start_index max_iterations reset).is_last = true ↔
      (AutoLoopStart.execute m loop_id start_index max_iterations reset).remaining = 0 := by
  unfold AutoLoopStart.execute
  rcases h : get_loop_state m loop_id with _ | st <;> rcases reset with _ | _ <;>
    simp [h]
  all_goals omega

/-- Claim C4: the remaining output of Loop Condition and that of Loop
Index agree exactly on every signal; and for a signal advanced k ≥ 0
steps from start_index with max_iterations ≥ 1, remaining is 0 precisely
from the final iteration (k = max_iterations - 1) on, which is exactly
one step before the End call that first reports termination. -/
theorem remaining_agreement :
    (∀ sig : LoopSignal,
      (LoopCondition.execute sig).remaining = (LoopIndex.execute sig).remaining)
    ∧ (∀ (sig : LoopSignal) (si mi k : Int),
        sig.start_index = some si → sig.max_iterations = some mi →
        sig.current_index = some (si + k) → 1 ≤ mi → 0 ≤ k →
        (((LoopIndex.execute sig).remaining = 0 ↔ mi - 1 ≤ k)
          ∧ ((LoopEnd.execute sig ()).continue_loop = true ↔ k + 1 < mi))) := by
  constructor
  · intro sig
    simp only [LoopCondition.execute, LoopIndex.execute]
    omega
  · intro sig si mi k h1 h2 h3 hmi hk
    simp only [LoopIndex.execute, LoopEnd.execute, h1, h2, h3, Option.getD_some]
    constructor
    · omega
    · simp only [decide_eq_true_eq]
      omega

/-- Claim C4 witness: the final-iteration signal of a loop with
start_index 0 and max_iterations 3 has remaining 0 and its End call
reports termination. -/
theorem remaining_agreement_witness :
    ((LoopIndex.execute
          { loop_id := none, current_index := some (0 + 2),
            start_index := some 0, max_iterations := some 3,
            is_active := some true }).remaining = 0 ↔ (3 : Int) - 1 ≤ 2)
    ∧ ((LoopEnd.execute
          { loop_id := none, current_index := some (0 + 2),
            start_index := some 0, max_iterations := some 3,
            is_active := some true } ()).continue_loop = true ↔ (2 : Int) + 1 < 3) :=
  remaining_agreement.2
    { loop_id := none, current_index := some (0 + 2), start_index := some 0,
      max_iterations := some 3, is_active := some true }
    0 3 2 rfl rfl rfl (by decide) (by decide)

/-- Claim C8: the reading operations Loop End, Loop Condition, Loop Index
and Auto Loop End are total on signals with missing keys and return
exactly what they return on the signal whose missing keys are filled with
the documented defaults (0 for the index keys, 1 for the iteration count,
"default" for the loop identifier). -/
theorem missing_fields_default (sig : LoopSignal) (m : StateMap) :
    LoopEnd.execute sig () = LoopEnd.execute (signalWithDefaults sig) ()
    ∧ LoopCondition.execute sig = LoopCondition.execute (signalWithDefaults sig)
    ∧ LoopIndex.execute sig = LoopIndex.execute (signalWithDefaults sig)
    ∧ AutoLoopEnd.execute m sig () = AutoLoopEnd.execute m (signalWithDefaults sig) () :=
  ⟨rfl, rfl, rfl, rfl⟩

/-- Claim C1: auto-mode persistence round trip.  When an Auto Loop End
call leaves the loop continuing, a following Auto Loop Start with the
same loop identifier and no reset returns exactly the index End
persisted; a never-seen identifier or a requested reset makes Start
return its start_index input and store the fresh record
(current_index = start_index, start_index, max_iterations). -/
theorem auto_persistence_round_trip
    (m : StateMap) (sig : LoopSignal) (si mi : Int) :
    (((AutoLoopEnd.execute m sig ()).should_continue = true →
       ∀ si2 mi2 : Int,
         (AutoLoopStart.execute (AutoLoopEnd.execute m sig ()).state_map
            (sig.loop_id.getD "default") si2 mi2 false).current_index
           = (AutoLoopEnd.execute m sig ()).next_index))
    ∧ (∀ (loop_id : String) (reset : Bool),
        (get_loop_state m loop_id = none ∨ reset = true) →
        (AutoLoopStart.execute m loop_id si mi reset).current_index = si
        ∧ get_loop_state (AutoLoopStart.execute m loop_id si mi reset).state_map loop_id
            = some { current_index := some si, start_index := some si,
                     max_iterations := some mi }) := by
  constructor
  · intro h si2 mi2
    simp only [AutoLoopEnd.execute] at h ⊢
    rw [if_pos h]
    simp [AutoLoopStart.execute, get_set_self]
  · intro loop_id reset h
    rcases h with h | h
    · rcases reset with _ | _ <;> simp [AutoLoopStart.execute, h, get_set_self]
    · subst h
      rcases hg : get_loop_state m loop_id with _ | st <;>
        simp [AutoLoopStart.execute, hg, get_set_self]

/-- Claim C1 witness: one End call on a three-iteration loop continues
and persists cursor 1, which the next Start returns; and a fresh
identifier starts at its start_index input and stores a fresh record. -/
theorem auto_persistence_round_trip_witness :
    ((AutoLoopStart.execute
        (AutoLoopEnd.execute []
          { loop_id := some "loop_1", current_index := some 0,
            start_index := some 0, max_iterations := some 3,
            is_active := some true } ()).state_map
        "loop_1" 0 3 false).current_index
      = (AutoLoopEnd.execute []
          { loop_id := some "loop_1", current_index := some 0,
            start_index := some 0, max_iterations := some 3,
            is_active := some true } ()).next_index)
    ∧ ((AutoLoopStart.execute [] "fresh" 5 4 false).current_index = 5
        ∧ get_loop_state (AutoLoopStart.execute [] "fresh" 5 4 false).state_map "fresh"
            = some { current_index := some 5, start_index := some 5,
                     max_iterations := some 4 }) :=
  ⟨(auto_persistence_round_trip []
      { loop_id := some "loop_1", current_index := some 0,
        start_index := some 0, max_iterations := some 3,
        is_active := some true } 0 3).1 (by decide) 0 3,
   (auto_persistence_round_trip []
      { loop_id := some "loop_1", current_index := some 0,
        start_index := some 0, max_iterations := some 3,
        is_active := some true } 5 4).2 "fresh" false (Or.inl rfl)⟩

/-- Claim C7: progress as reported by Loop Index (Python true division,
modelled as exact rational division) never decreases when the signal is
advanced by Loop End, and equals 1 at the final iteration
(current_index = start_index + max_iterations - 1) whenever
max_iterations ≥ 1. -/
theorem progress_monotone_and_final :
    (∀ sig : LoopSignal,
      (LoopIndex.execute sig).progress ≤
        (LoopIndex.execute (LoopEnd.execute sig ()).loop_signal).progress)
    ∧ (∀ (sig : LoopSignal) (si mi : Int),
        1 ≤ mi → sig.start_index = some si → sig.max_iterations = some mi →
        sig.current_index = some (si + mi - 1) →
        (LoopIndex.execute sig).progress = 1) := by
  constructor
  · intro sig
    simp only [LoopIndex.execute, LoopEnd.execute, Option.getD_some]
    by_cases hm0 : sig.max_iterations.getD 1 > 0
    · rw [if_pos hm0, if_pos hm0]
      rw [div_le_div_iff_of_pos_right (by exact_mod_cast hm0)]
      push_cast
      linarith
    · rw [if_neg hm0, if_neg hm0]
  · intro sig si mi hmi h1 h2 h3
    simp only [LoopIndex.execute, h1, h2, h3, Option.getD_some]
    rw [if_pos (by omega : mi > 0)]
    have hmi0 : ((mi : Int) : ℚ) ≠ 0 := by
      exact_mod_cast (by omega : (mi : Int) ≠ 0)
    field_simp
    ring

/-- Claim C7 witness: the final iteration of a loop with start_index 0 and
max_iterations 3 reports progress exactly 1. -/
theorem progress_monotone_and_final_witness :
    (LoopIndex.execute
        { loop_id := none, current_index := some (0 + 3 - 1),
          start_index := some 0, max_iterations := some 3,
          is_active := some true }).progress = 1 :=
  progress_monotone_and_final.2
    { loop_id := none, current_index := some (0 + 3 - 1),
      start_index := some 0, max_iterations := some 3,
      is_active := some true }
    0 3 (by decide) rfl rfl rfl

/-- Claim C3 counterexample: Loop Start performs no clamping: with
start_index 1 and a prior signal whose cursor is 0, the returned
current_index is 0, strictly below start_index, refuting the claim that
the returned current_index is never less than start_index. -/
theorem start_below_start_index_counterexample :
    (LoopStart.execute 1 5
        (some
          { loop_id := none, current_index := some 0,
            start_index := some 0, max_iterations := some 5,
            is_active := some true })).current_index < 1 := by
  decide

/-- Claim C3 amended: Start returns the prior cursor when one is present
(the prior signal's for Loop Start, the persisted record's for Auto Loop
Start without reset) and its start_index input otherwise; no clamping is
performed, so the returned current_index can lie strictly below
start_index when the prior cursor does. -/
theorem start_returns_prior_cursor (si mi : Int) :
    ((LoopStart.execute si mi none).current_index = si)
    ∧ (∀ (sig : LoopSignal) (c : Int),
        sig.current_index = some c →
        (LoopStart.execute si mi (some sig)).current_index = c)
    ∧ (∀ sig : LoopSignal,
        sig.current_index = none →
        (LoopStart.execute si mi (some sig)).current_index = si)
    ∧ (∀ (m : StateMap) (loop_id : String) (st : LoopState) (c : Int),
        get_loop_state m loop_id = some st → st.current_index = some c →
        (AutoLoopStart.execute m loop_id si mi false).current_index = c)
    ∧ (∀ (m : StateMap) (loop_id : String),
        get_loop_state m loop_id = none →
        (AutoLoopStart.execute m loop_id si mi false).current_index = si) := by
  refine ⟨rfl, ?_, ?_, ?_, ?_⟩
  · intro sig c h
    simp [LoopStart.execute, h]
  · intro sig h
    simp [LoopStart.execute, h]
  · intro m loop_id st c hg hc
    simp [AutoLoopStart.execute, hg, hc]
  · intro m loop_id hg
    simp [AutoLoopStart.execute, hg]

/-- Claim C3 amended witness: a prior signal with cursor 0 makes Loop
Start with start_index 1 return 0. -/
theorem start_returns_prior_cursor_witness :
    (LoopStart.execute 1 5
        (some
          { loop_id := none, current_index := some 0,
            start_index := some 0, max_iterations := some 5,
            is_active := some true })).current_index = 0 :=
  (start_returns_prior_cursor 1 5).2.1
    { loop_id := none, current_index := some 0,
      start_index := some 0, max_iterations := some 5,
      is_active := some true }
    0 rfl

/-- Claim C5 counterexample: a signal without a loop_id key, a true
break_condition and a state map holding a slot keyed "default": Loop
Break deletes that slot, so the persisted state map does not stay
unchanged for manual-mode signals. -/
theorem break_manual_counterexample :
    (LoopBreak.execute
        [("default",
          { current_index := some 0, start_index := some 0,
            max_iterations := some 3 })]
        { loop_id := none, current_index := some 0, start_index := some 0,
          max_iterations := some 3, is_active := some true }
        true ()).state_map
      ≠ [("default",
          { current_index := some 0, start_index := some 0,
            max_iterations := some 3 })] := by
  decide

/-- Claim C5 amended: Loop Break reports did_break equal to
break_condition, passes its passthrough input through unchanged, and
leaves the state map untouched when break_condition is false; when it is
true it purges the slot keyed by the signal's loop_id, falling back to
the key "default" when the signal has none — so a subsequent Auto Loop
Start on that key starts fresh, and a manual-mode signal leaves the map
unchanged only when no "default" slot exists. -/
theorem break_purges_slot {α : Type} (m : StateMap) (sig : LoopSignal) (c : Bool) (p : α) :
    ((LoopBreak.execute m sig c p).did_break = c)
    ∧ ((LoopBreak.execute m sig c p).passthrough = p)
    ∧ (c = false → (LoopBreak.execute m sig c p).state_map = m)
    ∧ (c = true →
        (LoopBreak.execute m sig c p).state_map
          = clear_loop_state m (some (sig.loop_id.getD "default"))
        ∧ get_loop_state (LoopBreak.execute m sig c p).state_map
            (sig.loop_id.getD "default") = none
        ∧ ∀ si mi : Int,
            (AutoLoopStart.execute (LoopBreak.execute m sig c p).state_map
              (sig.loop_id.getD "default") si mi false).current_index = si)
    ∧ (sig.loop_id = none → get_loop_state m "default" = none →
        (LoopBreak.execute m sig c p).state_map = m) := by
  refine ⟨rfl, rfl, ?_, ?_, ?_⟩
  · intro h
    simp [LoopBreak.execute, h]
  · intro h
    subst h
    refine ⟨rfl, get_clear_self _ _, ?_⟩
    intro si mi
    simp [AutoLoopStart.execute, LoopBreak.execute, get_clear_self]
  · intro hid hnone
    rcases c with _ | _
    · rfl
    · simp only [LoopBreak.execute, hid, Option.getD_none]
      simpa using clear_of_get_none m "default" hnone

/-- Claim C5 amended witness: a manual-mode signal (no loop_id) with a
true break_condition purges the fallback slot "default". -/
theorem break_purges_slot_witness :
    get_loop_state
        (LoopBreak.execute
          [("default",
            { current_index := some 2, start_index := some 0,
              max_iterations := some 5 })]
          { loop_id := none, current_index := some 2, start_index := some 0,
            max_iterations := some 5, is_active := some true }
          true ()).state_map
        "default"
      = none :=
  ((break_purges_slot
      [("default",
        { current_index := some 2, start_index := some 0,
          max_iterations := some 5 })]
      { loop_id := none, current_index := some 2, start_index := some 0,
        max_iterations := some 5, is_active := some true }
      true ()).2.2.2.1 rfl).2.1

/-- Claim C6 counterexample: Loop End's output signal never carries a
loop_id key, so on an input signal that has one, a field other than
current_index and is_active changes across the advance. -/
theorem advance_drops_loop_id_counterexample :
    (LoopEnd.execute
        { loop_id := some "loop_1", current_index := some 0,
          start_index := some 0, max_iterations := some 3,
          is_active := some true } ()).loop_signal.loop_id
      ≠ some "loop_1" := by
  decide

/-- Claim C6 amended: advancing preserves the loop bounds — Loop End's
output signal and Auto Loop End's persisted record carry exactly the
start_index and max_iterations read from the input signal, so end_index
= start_index + max_iterations is constant across advances; current_index
advances by one and is_active is recomputed, but Loop End's output signal
always has loop_id absent, dropping any input loop_id key. -/
theorem advance_preserves_bounds (sig : LoopSignal) (m : StateMap) :
    ((LoopEnd.execute sig ()).loop_signal.start_index = some (sig.start_index.getD 0)
     ∧ (LoopEnd.execute sig ()).loop_signal.max_iterations
         = some (sig.max_iterations.getD 1)
     ∧ (LoopEnd.execute sig ()).loop_signal.current_index
         = some (sig.current_index.getD 0 + 1)
     ∧ (LoopEnd.execute sig ()).loop_signal.loop_id = none)
    ∧ (∀ st : LoopState,
        get_loop_state (AutoLoopEnd.execute m sig ()).state_map
            (sig.loop_id.getD "default") = some st →
        st.start_index = some (sig.start_index.getD 0)
        ∧ st.max_iterations = some (sig.max_iterations.getD 1)) := by
  refine ⟨⟨rfl, rfl, rfl, rfl⟩, ?_⟩
  intro st hst
  simp only [AutoLoopEnd.execute] at hst
  by_cases h : decide (sig.current_index.getD 0 + 1 <
      sig.start_index.getD 0 + sig.max_iterations.getD 1) = true
  · rw [if_pos h, get_set_self] at hst
    injection hst with h2
    subst h2
    exact ⟨rfl, rfl⟩
  · rw [if_neg h, get_clear_self] at hst
    simp at hst

/-- Claim C6 amended witness: one auto-mode End call on a three-iteration
loop persists a record whose bounds equal those read from the input
signal. -/
theorem advance_preserves_bounds_witness :
    ({ current_index := some 1, start_index := some 0,
       max_iterations := some 3 } : LoopState).start_index = some 0
    ∧ ({ current_index := some 1, start_index := some 0,
         max_iterations := some 3 } : LoopState).max_iterations = some 3 :=
  (advance_preserves_bounds
      { loop_id := some "loop_1", current_index := some 0,
        start_index := some 0, max_iterations := some 3,
        is_active := some true }
      []).2
    { current_index := some 1, start_index := some 0, max_iterations := some 3 }
    (by decide)
